import Mathlib

/-!
Shallow embedding of `src/providers/preview/mathpreview.ts` (class `MathPreview`)
from the LaTeX-Workshop repository, together with the external collaborators it
calls.  External pure helpers that live outside the provided sources
(`mathjaxify`, `stripTeX`, `CursorRenderer.renderCursor`, `MathJaxPool.typeset`,
`svgToDataUrl`, `TeXMathEnvFinder`, ...) are abstracted as fields of an `Env`
record, since the claims only depend on how `MathPreview` composes them.
Observable side effects (typeset submissions, cursor-renderer invocations,
project-wide macro scans, file loads) are recorded in an `Effects` value so
that "never calls X" properties are statable.
-/

/-- Editor position, as in `vscode.Position`. -/
structure Position where
  line : Nat
  character : Nat
deriving DecidableEq, Repr

/-- Editor range, as in `vscode.Range`. -/
structure Range where
  startPos : Position
  endPos : Position
deriving DecidableEq, Repr

/-- A text document (live `vscode.TextDocument` or a `TextDocumentLike`
projected from a file); only its text matters for the claims. -/
structure Document where
  text : String
deriving DecidableEq, Repr

/-- A located math environment, as in
`mathpreviewlib/texmathenvfinder.ts` (`TexMathEnv`). -/
structure TexMathEnv where
  texString : String
  range : Range
  envname : String
deriving DecidableEq, Repr

/-- The `prevIndex` payload of a `ReferenceEntry`
(`providers/completer/reference.ts`). -/
structure PrevIndex where
  refNumber : String
  pageNumber : String
deriving DecidableEq, Repr

/-- A reference entry as consumed by `MathPreview`
(fields `file`, `position`, `label`, `documentation`, `prevIndex`). -/
structure ReferenceEntry where
  file : String
  position : Position
  label : String
  documentation : String
  prevIndex : Option PrevIndex
deriving DecidableEq, Repr

/-- The configuration keys of `latex-workshop` read by `mathpreview.ts`:
`hover.preview.scale`, `hover.ref.enabled`, `hover.ref.number.enabled`. -/
structure Config where
  hoverPreviewScale : Nat
  hoverRefEnabled : Bool
  hoverRefNumberEnabled : Bool
deriving DecidableEq, Repr

/-- Theme lightness as returned by `getCurrentThemeLightness`
(`utils/theme.ts`): the string `'light'` or `'dark'`. -/
inductive ThemeLightness where
  | light
  | dark
deriving DecidableEq, Repr

/-- Options handed to `MathJaxPool.typeset`. -/
structure TypesetOpts where
  scale : Nat
  color : String
deriving DecidableEq, Repr

/-- A rejection by the typesetting engine, carrying its diagnostic. -/
structure RenderError where
  diagnostic : String
deriving DecidableEq, Repr

/-- A hover result, as in `vscode.Hover`: a list of markdown fragments and an
optional range. -/
structure Hover where
  contents : List String
  range : Option Range
deriving DecidableEq, Repr

/-- Observable side effects of one `MathPreview` operation: the list of
typeset submissions (source and options, in order), and invocation counts of
the cursor renderer, the project-wide macro scan and the file loader. -/
structure Effects where
  typesets : List (String × TypesetOpts) := []
  cursorRenderCalls : Nat := 0
  projectScanCalls : Nat := 0
  fileLoadCalls : Nat := 0
deriving DecidableEq, Repr

/-- The external collaborators of `MathPreview`, abstracted as functions:
configuration storage, the current theme lightness, the pure math-source
helpers from `mathpreviewlib`, the typesetting pool, the math-environment
finder, and file reading for projected documents. -/
structure Env where
  config : Config
  lightness : ThemeLightness
  mathjaxify : String → String → String
  stripTeX : String → String
  renderCursorFn : Document → Range → String → String
  typeset : String → TypesetOpts → Except RenderError String
  svgToDataUrl : String → String
  addDummyCodeBlock : String → String
  findProjectNewCommandResult : String
  findHoverOnRefFn : Document → Position → ReferenceEntry → String → Option TexMathEnv
  findHoverOnTexFn : Document → Position → Option TexMathEnv
  findMathEnvIncludingPositionFn : Document → Position → Option TexMathEnv
  getWordRangeAtPosition : Document → Position → Option Range
  synctexLink : Nat → String → String
  readFile : String → Document

/-- The mutable data of a `MathPreview` instance: the private `color` field
(initialised to `'#000000'` on line 21 of `mathpreview.ts`). -/
structure MathPreviewState where
  color : String
deriving DecidableEq, Repr

/-- `getColor` (`mathpreview.ts`, lines 108-115): reads the current theme
lightness and assigns `'#000000'` to the color field under a light theme and
`'#ffffff'` otherwise. -/
def getColorRun (lightness : ThemeLightness) (st : MathPreviewState) : MathPreviewState :=
  if lightness = ThemeLightness.light then
    { st with color := "#000000" }
  else
    { st with color := "#ffffff" }

/-- A typeset request as captured at submission time by `provideHoverOnTex`:
the source string and the options (scale, color) computed before the engine is
awaited. -/
structure PendingRequest where
  arg : String
  opts : TypesetOpts
deriving DecidableEq, Repr

/-- The synchronous prefix of `provideHoverOnTex` (`mathpreview.ts`, lines
45-50): render the cursor into the source, mathjaxify it, strip it, prepend
the supplied `newCommand`, and capture the current color into the typeset
options.  All of this happens before the `await` on the engine. -/
def submitHoverOnTex (env : Env) (st : MathPreviewState) (document : Document)
    (tex : TexMathEnv) (newCommand : String) : PendingRequest :=
  let scale := env.config.hoverPreviewScale
  let s := env.renderCursorFn document tex.range st.color
  let s2 := env.mathjaxify s tex.envname
  { arg := newCommand ++ env.stripTeX s2
    opts := { scale := scale, color := st.color } }

/-- The awaited part of `provideHoverOnTex`: hand the captured request to the
pool (`this.mj.typeset(typesetArg, typesetOpts)`). -/
def completePending (env : Env) (r : PendingRequest) : Except RenderError String :=
  env.typeset r.arg r.opts

/-- `provideHoverOnTex` (`mathpreview.ts`, lines 44-60): build the typeset
request, await the engine; on success wrap the SVG in a markdown hover, on
failure log and re-throw the engine's error unchanged (`throw e`). -/
def provideHoverOnTex (env : Env) (st : MathPreviewState) (document : Document)
    (tex : TexMathEnv) (newCommand : String) : Except RenderError Hover × Effects :=
  let r := submitHoverOnTex env st document tex newCommand
  let eff : Effects := { typesets := [(r.arg, r.opts)], cursorRenderCalls := 1 }
  match completePending env r with
  | Except.ok xml =>
      let md := env.svgToDataUrl xml
      (Except.ok { contents := [env.addDummyCodeBlock ("![equation](" ++ md ++ ")")]
                   range := some tex.range }, eff)
  | Except.error e => (Except.error e, eff)

/-- `refNumberMessage` (`mathpreview.ts`, lines 90-97): when `prevIndex` is
present, the string `numbered <refNumber> at last compilation`; otherwise
`undefined`. -/
def refNumberMessage (refData : ReferenceEntry) : Option String :=
  match refData.prevIndex with
  | some prev => some ("numbered " ++ prev.refNumber ++ " at last compilation")
  | none => none

/-- Modelled from the spec: `HoverPreviewOnRefProvider.renderSvgOnRef` lives in
`mathpreviewlib/hoverpreviewonref.ts`, which is not among the provided sources.
Per the spec (section 4.5), the reference flow skips cursor annotation and
submits the macro preamble plus the region's raw source to the pool with the
given color snapshot; a rejection surfaces as a render error. -/
def hoverRenderSvgOnRef (env : Env) (tex : TexMathEnv) (newCommand : String)
    (color : String) : Except RenderError String × Effects :=
  let arg := newCommand ++ tex.texString
  let opts : TypesetOpts := { scale := env.config.hoverPreviewScale, color := color }
  match env.typeset arg opts with
  | Except.ok xml => (Except.ok (env.svgToDataUrl xml), { typesets := [(arg, opts)] })
  | Except.error e => (Except.error e, { typesets := [(arg, opts)] })

/-- Modelled from the spec: `HoverPreviewOnRefProvider.provideHoverPreviewOnRef`
(`mathpreviewlib/hoverpreviewonref.ts`) is not among the provided sources.
Per the spec (section 4.5) it renders the referenced region through the pool
(no cursor annotation) and wraps the image plus a pdf link in a hover. -/
def provideHoverPreviewOnRef (env : Env) (tex : TexMathEnv) (newCommands : String)
    (refData : ReferenceEntry) (color : String) : Except RenderError Hover × Effects :=
  match hoverRenderSvgOnRef env tex newCommands color with
  | (Except.ok md, eff) =>
      (Except.ok { contents := [md, env.synctexLink refData.position.line refData.file]
                   range := some tex.range }, eff)
  | (Except.error e, eff) => (Except.error e, eff)

/-- `provideHoverOnRef` (`mathpreview.ts`, lines 62-88): when the
`hover.ref.enabled` configuration is on and the finder locates the labelled
math environment, scan the project for new commands and delegate to the
preview provider; otherwise fall back to a plain hover built from
`refData.documentation`, augmented with the numbering message when present and
`hover.ref.number.enabled` is on, plus the pdf link. -/
def provideHoverOnRef (env : Env) (st : MathPreviewState) (document : Document)
    (position : Position) (refData : ReferenceEntry) (token : String) :
    Except RenderError Hover × Effects :=
  let mdLink := env.synctexLink refData.position.line refData.file
  let texOpt := if env.config.hoverRefEnabled then
      env.findHoverOnRefFn document position refData token
    else none
  match texOpt with
  | some tex =>
      let newCommands := env.findProjectNewCommandResult
      let (h, eff) := provideHoverPreviewOnRef env tex newCommands refData st.color
      (h, { eff with projectScanCalls := eff.projectScanCalls + 1 })
  | none =>
      let md := "```latex\n" ++ refData.documentation ++ "\n```\n"
      let refRange := env.getWordRangeAtPosition document position
      match refNumberMessage refData, env.config.hoverRefNumberEnabled with
      | some m, true =>
          (Except.ok { contents := [md, m, mdLink], range := refRange }, {})
      | some _, false =>
          (Except.ok { contents := [md, mdLink], range := refRange }, {})
      | none, _ =>
          (Except.ok { contents := [md, mdLink], range := refRange }, {})

/-- Result record of `generateSVG`. -/
structure SvgResult where
  svgDataUrl : String
  newCommands : String
deriving DecidableEq, Repr

/-- `generateSVG` (`mathpreview.ts`, lines 99-106): take the supplied
new-commands argument if present (`newCommandsArg ?? await
this.newCommandFinder.findProjectNewCommand()`), otherwise scan the project;
mathjaxify and strip the region's raw text, prepend the new commands, typeset
with the current color, and return the data url together with the new
commands used. -/
def generateSVG (env : Env) (st : MathPreviewState) (tex : TexMathEnv)
    (newCommandsArg : Option String) : Except RenderError SvgResult × Effects :=
  let pick : String × Nat :=
    match newCommandsArg with
    | some s => (s, 0)
    | none => (env.findProjectNewCommandResult, 1)
  let newCommands := pick.1
  let scale := env.config.hoverPreviewScale
  let s := env.mathjaxify tex.texString tex.envname
  let arg := newCommands ++ env.stripTeX s
  let opts : TypesetOpts := { scale := scale, color := st.color }
  match env.typeset arg opts with
  | Except.ok xml =>
      (Except.ok { svgDataUrl := env.svgToDataUrl xml, newCommands := newCommands },
       { typesets := [(arg, opts)], projectScanCalls := pick.2 })
  | Except.error e =>
      (Except.error e, { typesets := [(arg, opts)], projectScanCalls := pick.2 })

/-- `renderCursor` (`mathpreview.ts`, lines 117-119). -/
def renderCursor (env : Env) (st : MathPreviewState) (document : Document)
    (range : Range) : String :=
  env.renderCursorFn document range st.color

/-- `findHoverOnTex` (`mathpreview.ts`, lines 121-123). -/
def findHoverOnTex (env : Env) (document : Document) (position : Position) :
    Option TexMathEnv :=
  env.findHoverOnTexFn document position

/-- `findMathEnvIncludingPosition` (`mathpreview.ts`, lines 139-141). -/
def findMathEnvIncludingPosition (env : Env) (document : Document)
    (position : Position) : Option TexMathEnv :=
  env.findMathEnvIncludingPositionFn document position

/-- `MathPreview.renderSvgOnRef` (`mathpreview.ts`, lines 134-137): scan the
project for new commands, then delegate to the preview provider's
`renderSvgOnRef` with the current color. -/
def renderSvgOnRefRun (env : Env) (st : MathPreviewState) (tex : TexMathEnv)
    (refData : ReferenceEntry) : Except RenderError String × Effects :=
  let newCommand := env.findProjectNewCommandResult
  let out := hoverRenderSvgOnRef env tex newCommand st.color
  (out.1, { out.2 with projectScanCalls := out.2.projectScanCalls + 1 })

/-- The file-path-keyed projected-document cache. -/
structure DocCache where
  entries : List (String × Document)
deriving DecidableEq, Repr

/-- Lookup in the projected-document cache by file path. -/
def cacheFind : List (String × Document) → String → Option Document
  | [], _ => none
  | (k, d) :: rest, p => if k = p then some d else cacheFind rest p

/-- Result of a projected-document load: the document, the cache after the
call, and how many file reads happened (0 on a hit, 1 on a miss). -/
structure LoadOut where
  doc : Document
  cache : DocCache
  loads : Nat
deriving DecidableEq, Repr

/-- Modelled from the spec: `TextDocumentLike.load`
(`mathpreviewlib/textdocumentlike.ts`) is not among the provided sources.  Per
the spec (sections 4.5 and 9), resolving the owning document for a file path
is an explicit keyed cache (path to document) with a load-once, reuse policy
and no eviction: on a hit the cached document is returned with no file read;
on a miss the file is read once and the result inserted. -/
def loadDocument (env : Env) (cache : DocCache) (path : String) : LoadOut :=
  match cacheFind cache.entries path with
  | some d => { doc := d, cache := cache, loads := 0 }
  | none =>
      let d := env.readFile path
      { doc := d, cache := { entries := (path, d) :: cache.entries }, loads := 1 }

/-- Result of `findHoverOnRef`, instrumented with the document it operated on,
the cache after the call, and the number of file loads performed. -/
structure FindHoverOnRefOut where
  tex : Option TexMathEnv
  doc : Document
  cache : DocCache
  loads : Nat

/-- `MathPreview.findHoverOnRef` (`mathpreview.ts`, lines 125-132): resolve
the document for `refData.file` through the projected-document load, then ask
the finder for the labelled math environment at `refData.position`. -/
def findHoverOnRefRun (env : Env) (cache : DocCache) (refData : ReferenceEntry)
    (token : String) : FindHoverOnRefOut :=
  let out := loadDocument env cache refData.file
  let position := refData.position
  { tex := env.findHoverOnRefFn out.doc position refData token
    doc := out.doc
    cache := out.cache
    loads := out.loads }

/-- The operations of the `MathPreview` coordinator, one constructor per
public method, plus the handler registered in the constructor (line 32:
`vscode.workspace.onDidChangeConfiguration(() => this.getColor())`), through
which theme changes are delivered. -/
inductive MPOp where
  | opProvideHoverOnTex (doc : Document) (tex : TexMathEnv) (nc : String)
  | opProvideHoverOnRef (doc : Document) (pos : Position) (refData : ReferenceEntry) (token : String)
  | opGenerateSVG (tex : TexMathEnv) (arg : Option String)
  | opRenderCursor (doc : Document) (range : Range)
  | opFindHoverOnTex (doc : Document) (pos : Position)
  | opFindHoverOnRef (refData : ReferenceEntry) (token : String)
  | opRenderSvgOnRef (tex : TexMathEnv) (refData : ReferenceEntry)
  | opFindMathEnvIncludingPosition (doc : Document) (pos : Position)
  | opFindProjectNewCommand
  | opThemeChangeHandler
deriving DecidableEq

/-- The full mutable state reachable from a `MathPreview` instance: its color
field and the projected-document cache. -/
structure FullState where
  mp : MathPreviewState
  cache : DocCache
deriving DecidableEq, Repr

/-- One step of the coordinator: run an operation against the state.  Every
operation except the registered theme-change handler leaves the color field
alone (the hover and render operations only read it); `findHoverOnRef` updates
the document cache; the handler runs `getColor`. -/
def runOp (env : Env) (s : FullState) : MPOp → FullState
  | MPOp.opProvideHoverOnTex doc tex nc =>
      let _ := provideHoverOnTex env s.mp doc tex nc
      s
  | MPOp.opProvideHoverOnRef doc pos refData token =>
      let _ := provideHoverOnRef env s.mp doc pos refData token
      s
  | MPOp.opGenerateSVG tex arg =>
      let _ := generateSVG env s.mp tex arg
      s
  | MPOp.opRenderCursor doc range =>
      let _ := renderCursor env s.mp doc range
      s
  | MPOp.opFindHoverOnTex doc pos =>
      let _ := findHoverOnTex env doc pos
      s
  | MPOp.opFindHoverOnRef refData token =>
      { s with cache := (findHoverOnRefRun env s.cache refData token).cache }
  | MPOp.opRenderSvgOnRef tex refData =>
      let _ := renderSvgOnRefRun env s.mp tex refData
      s
  | MPOp.opFindMathEnvIncludingPosition doc pos =>
      let _ := findMathEnvIncludingPosition env doc pos
      s
  | MPOp.opFindProjectNewCommand => s
  | MPOp.opThemeChangeHandler => { s with mp := getColorRun env.lightness s.mp }

/-- The initial state of a fresh `MathPreview`: color `'#000000'` (the field
initialiser on line 21) and an empty document cache. -/
def initialState : FullState :=
  { mp := { color := "#000000" }, cache := { entries := [] } }

/-- States reachable from a freshly constructed `MathPreview` by running
operations under arbitrary environments. -/
inductive Reachable : FullState → Prop where
  | init : Reachable initialState
  | step (env : Env) (s : FullState) (op : MPOp) : Reachable s → Reachable (runOp env s op)

/-- The queue-level view used for the color-capture claim: the coordinator
state together with the typeset requests submitted but not yet completed. -/
structure SysState where
  mp : MathPreviewState
  queue : List PendingRequest
deriving DecidableEq, Repr

/-- Session events relevant to color capture: a theme change (which runs
`getColor` with the new lightness) and the submission of a math-hover render
request (which appends the captured request to the pool queue). -/
inductive HoverEvent where
  | themeChange (l : ThemeLightness)
  | submit (doc : Document) (tex : TexMathEnv) (nc : String)

/-- Event semantics for the color-capture claim. -/
def stepEvent (env : Env) (s : SysState) : HoverEvent → SysState
  | HoverEvent.themeChange l => { s with mp := getColorRun l s.mp }
  | HoverEvent.submit doc tex nc =>
      { s with queue := s.queue ++ [submitHoverOnTex env s.mp doc tex nc] }

/-- The markdown fragments of a hover outcome (empty when the request failed). -/
def hoverContents (out : Except RenderError Hover × Effects) : List String :=
  match out.1 with
  | Except.ok h => h.contents
  | Except.error _ => []

/-! Concrete sample inputs used by the witnesses and counterexamples. -/

def p0 : Position := { line := 0, character := 0 }

def r0 : Range := { startPos := p0, endPos := p0 }

def d0 : Document := { text := "" }

def t0 : TexMathEnv := { texString := "x=1", range := r0, envname := "equation" }

def st0 : MathPreviewState := { color := "#000000" }

def sampleEnv : Env :=
  { config := { hoverPreviewScale := 1, hoverRefEnabled := true, hoverRefNumberEnabled := true }
    lightness := ThemeLightness.light
    mathjaxify := fun s _ => s
    stripTeX := fun s => s
    renderCursorFn := fun _ _ _ => "cursor"
    typeset := fun s o => Except.ok (s ++ o.color)
    svgToDataUrl := fun s => s
    addDummyCodeBlock := fun s => s
    findProjectNewCommandResult := "nc"
    findHoverOnRefFn := fun _ _ _ _ => none
    findHoverOnTexFn := fun _ _ => none
    findMathEnvIncludingPositionFn := fun _ _ => none
    getWordRangeAtPosition := fun _ _ => none
    synctexLink := fun _ _ => "link"
    readFile := fun p => { text := p } }

def ref0 : ReferenceEntry :=
  { file := "main.tex", position := p0, label := "eq:1", documentation := "doc"
    prevIndex := none }

def errEnv : Env := { sampleEnv with typeset := fun _ _ => Except.error { diagnostic := "bad" } }

def cEnvX : Env :=
  { sampleEnv with
      config := { hoverPreviewScale := 1, hoverRefEnabled := false, hoverRefNumberEnabled := false } }

def cRefX : ReferenceEntry :=
  { file := "main.tex", position := p0, label := "eq:1", documentation := "doc"
    prevIndex := some { refNumber := "5", pageNumber := "1" } }

def cEnvW : Env :=
  { sampleEnv with
      config := { hoverPreviewScale := 1, hoverRefEnabled := false, hoverRefNumberEnabled := true } }

def cRefW : ReferenceEntry :=
  { file := "main.tex", position := p0, label := "eq:1", documentation := "doc"
    prevIndex := some { refNumber := "3", pageNumber := "1" } }

def emptyCache : DocCache := { entries := [] }

/-! Helper lemmas about the projected-document load. -/

/-- After a load, the cache maps the path to the document just returned. -/
theorem loadDocument_find (env : Env) (c : DocCache) (p : String) :
    cacheFind (loadDocument env c p).cache.entries p = some (loadDocument env c p).doc := by
  cases h : cacheFind c.entries p with
  | some d => simp [loadDocument, h]
  | none => simp [loadDocument, h, cacheFind]

/-- A single load reads the file at most once. -/
theorem loadDocument_loads_le_one (env : Env) (c : DocCache) (p : String) :
    (loadDocument env c p).loads ≤ 1 := by
  cases h : cacheFind c.entries p <;> simp [loadDocument, h]

/-! The claims. -/

/-- Claim C1: when the finder yields no math region for the reference target
(covering both a missing label and an unreadable file, which the finder
reports identically), `provideHoverOnRef` returns a plain-text hover whose
first fragment is the latex block built from the target's documentation, it
does not fail, and no typeset request is submitted and no project scan runs. -/
theorem claim_C1_ref_hover_fallback (env : Env) (st : MathPreviewState)
    (document : Document) (position : Position) (refData : ReferenceEntry) (token : String)
    (h : env.findHoverOnRefFn document position refData token = none) :
    (provideHoverOnRef env st document position refData token).2.typesets = [] ∧
    (provideHoverOnRef env st document position refData token).2.projectScanCalls = 0 ∧
    ∃ hov, (provideHoverOnRef env st document position refData token).1 = Except.ok hov ∧
      hov.contents.head? = some ("```latex\n" ++ refData.documentation ++ "\n```\n") := by
  have htex : (if env.config.hoverRefEnabled then
      env.findHoverOnRefFn document position refData token else none) = none := by
    cases env.config.hoverRefEnabled <;> simp [h]
  unfold provideHoverOnRef
  rw [htex]
  cases hm : refNumberMessage refData with
  | some m => cases hnum : env.config.hoverRefNumberEnabled <;> simp
  | none => simp

/-- Claim C1 witness. -/
theorem claim_C1_ref_hover_fallback_witness :
    (sampleEnv.findHoverOnRefFn d0 p0 ref0 "tok" = none) ∧
    ((provideHoverOnRef sampleEnv st0 d0 p0 ref0 "tok").2.typesets = [] ∧
     (provideHoverOnRef sampleEnv st0 d0 p0 ref0 "tok").2.projectScanCalls = 0 ∧
     ∃ hov, (provideHoverOnRef sampleEnv st0 d0 p0 ref0 "tok").1 = Except.ok hov ∧
       hov.contents.head? = some ("```latex\n" ++ ref0.documentation ++ "\n```\n")) :=
  ⟨rfl, claim_C1_ref_hover_fallback sampleEnv st0 d0 p0 ref0 "tok" rfl⟩

/-- Claim C2: when the engine rejects the submitted source,
`provideHoverOnTex` fails with that very error (the source logs and then
re-throws `e` unchanged), rather than converting it into a non-error
outcome. -/
theorem claim_C2_render_error_rethrown (env : Env) (st : MathPreviewState)
    (document : Document) (tex : TexMathEnv) (newCommand : String) (e : RenderError)
    (h : env.typeset (submitHoverOnTex env st document tex newCommand).arg
           (submitHoverOnTex env st document tex newCommand).opts = Except.error e) :
    (provideHoverOnTex env st document tex newCommand).1 = Except.error e := by
  simp only [provideHoverOnTex, completePending]
  rw [h]

/-- Claim C2 witness. -/
theorem claim_C2_render_error_rethrown_witness :
    (errEnv.typeset (submitHoverOnTex errEnv st0 d0 t0 "").arg
        (submitHoverOnTex errEnv st0 d0 t0 "").opts = Except.error { diagnostic := "bad" }) ∧
    (provideHoverOnTex errEnv st0 d0 t0 "").1 = Except.error { diagnostic := "bad" } :=
  ⟨rfl, claim_C2_render_error_rethrown errEnv st0 d0 t0 "" { diagnostic := "bad" } rfl⟩

/-- Claim C3: after `getColor` runs under a light theme the color field is
`'#000000'`, and under the only other lightness (dark) it is `'#ffffff'`. -/
theorem claim_C3_color_by_lightness (st : MathPreviewState) :
    (getColorRun ThemeLightness.light st).color = "#000000" ∧
    (getColorRun ThemeLightness.dark st).color = "#ffffff" := by
  constructor
  · rfl
  · simp [getColorRun]

/-- Claim C4: `provideHoverOnTex` captures the color at submission time: the
options of the captured request carry the state's color; a theme-change event
leaves already-queued requests untouched; a request submitted after the change
carries the updated color; and the typeset submission performed by
`provideHoverOnTex` is exactly the captured request. -/
theorem claim_C4_color_captured_at_submission (env : Env) (s : SysState)
    (l : ThemeLightness) (doc : Document) (tex : TexMathEnv) (nc : String) :
    (submitHoverOnTex env s.mp doc tex nc).opts.color = s.mp.color ∧
    (stepEvent env s (HoverEvent.themeChange l)).queue = s.queue ∧
    (stepEvent env (stepEvent env s (HoverEvent.themeChange l))
        (HoverEvent.submit doc tex nc)).queue
      = s.queue ++ [submitHoverOnTex env (getColorRun l s.mp) doc tex nc] ∧
    (submitHoverOnTex env (getColorRun l s.mp) doc tex nc).opts.color
      = (getColorRun l s.mp).color ∧
    (provideHoverOnTex env s.mp doc tex nc).2.typesets =
      [((submitHoverOnTex env s.mp doc tex nc).arg,
        (submitHoverOnTex env s.mp doc tex nc).opts)] := by
  refine ⟨rfl, rfl, rfl, rfl, ?_⟩
  cases h : completePending env (submitHoverOnTex env s.mp doc tex nc) <;>
    simp [provideHoverOnTex, h]

/-- Claim C5: with a supplied macro override, `generateSVG` runs no project
scan, submits exactly the override prepended to the stripped math source, and
returns the override as the `newCommands` field of its result; without the
override, the project is scanned. -/
theorem claim_C5_macro_override (env : Env) (st : MathPreviewState)
    (tex : TexMathEnv) (ov : String) :
    (generateSVG env st tex (some ov)).2.projectScanCalls = 0 ∧
    (generateSVG env st tex (some ov)).2.typesets =
      [(ov ++ env.stripTeX (env.mathjaxify tex.texString tex.envname),
        { scale := env.config.hoverPreviewScale, color := st.color })] ∧
    (generateSVG env st tex (some ov)).1 =
      Except.map
        (fun xml => { svgDataUrl := env.svgToDataUrl xml, newCommands := ov })
        (env.typeset (ov ++ env.stripTeX (env.mathjaxify tex.texString tex.envname))
          { scale := env.config.hoverPreviewScale, color := st.color }) ∧
    (generateSVG env st tex none).2.projectScanCalls = 1 := by
  refine ⟨?_, ?_, ?_, ?_⟩
  · cases h : env.typeset (ov ++ env.stripTeX (env.mathjaxify tex.texString tex.envname))
        { scale := env.config.hoverPreviewScale, color := st.color } <;>
      simp [generateSVG, h]
  · cases h : env.typeset (ov ++ env.stripTeX (env.mathjaxify tex.texString tex.envname))
        { scale := env.config.hoverPreviewScale, color := st.color } <;>
      simp [generateSVG, h]
  · cases h : env.typeset (ov ++ env.stripTeX (env.mathjaxify tex.texString tex.envname))
        { scale := env.config.hoverPreviewScale, color := st.color } <;>
      simp [generateSVG, h, Except.map]
  · cases h : env.typeset
        (env.findProjectNewCommandResult ++ env.stripTeX (env.mathjaxify tex.texString tex.envname))
        { scale := env.config.hoverPreviewScale, color := st.color } <;>
      simp [generateSVG, h]

/-- Claim C6: the reference-rendering paths never invoke the cursor renderer
and submit a source built from the region's raw `texString`, while the
in-place math-hover path does invoke the cursor renderer (once). -/
theorem claim_C6_no_cursor_on_ref_path (env : Env) (st : MathPreviewState)
    (doc : Document) (tex : TexMathEnv) (nc : String) (refData : ReferenceEntry)
    (arg : Option String) :
    (generateSVG env st tex arg).2.cursorRenderCalls = 0 ∧
    (renderSvgOnRefRun env st tex refData).2.cursorRenderCalls = 0 ∧
    (renderSvgOnRefRun env st tex refData).2.typesets =
      [(env.findProjectNewCommandResult ++ tex.texString,
        { scale := env.config.hoverPreviewScale, color := st.color })] ∧
    (provideHoverOnTex env st doc tex nc).2.cursorRenderCalls = 1 := by
  refine ⟨?_, ?_, ?_, ?_⟩
  · cases arg with
    | some ov =>
        cases h : env.typeset (ov ++ env.stripTeX (env.mathjaxify tex.texString tex.envname))
            { scale := env.config.hoverPreviewScale, color := st.color } <;>
          simp [generateSVG, h]
    | none =>
        cases h : env.typeset
            (env.findProjectNewCommandResult ++ env.stripTeX (env.mathjaxify tex.texString tex.envname))
            { scale := env.config.hoverPreviewScale, color := st.color } <;>
          simp [generateSVG, h]
  · cases h : env.typeset (env.findProjectNewCommandResult ++ tex.texString)
        { scale := env.config.hoverPreviewScale, color := st.color } <;>
      simp [renderSvgOnRefRun, hoverRenderSvgOnRef, h]
  · cases h : env.typeset (env.findProjectNewCommandResult ++ tex.texString)
        { scale := env.config.hoverPreviewScale, color := st.color } <;>
      simp [renderSvgOnRefRun, hoverRenderSvgOnRef, h]
  · cases h : completePending env (submitHoverOnTex env st doc tex nc) <;>
      simp [provideHoverOnTex, h]

/-- Claim C7 counterexample: a reference target that carries a previous
compile number (`prevIndex` present) while `hover.ref.number.enabled` is off:
the hover carries no numbering note, so the note does not appear "exactly when
`prevIndex` is present". -/
theorem claim_C7_counterexample :
    cRefX.prevIndex.isSome = true ∧
    "numbered 5 at last compilation" ∉
      hoverContents (provideHoverOnRef cEnvX st0 d0 p0 cRefX "t") := by
  decide

/-- Claim C7 (amended): when the hover falls back to plain reference text,
it is augmented with the note `numbered <N> at last compilation` exactly when
`prevIndex` is present and the `hover.ref.number.enabled` configuration is on;
`refNumberMessage` is `undefined` exactly when `prevIndex` is absent. -/
theorem claim_C7_numbering_note (env : Env) (st : MathPreviewState)
    (document : Document) (position : Position) (refData : ReferenceEntry) (token : String)
    (h : env.config.hoverRefEnabled = false ∨
         env.findHoverOnRefFn document position refData token = none) :
    (refNumberMessage refData
       = refData.prevIndex.map
           (fun prev => "numbered " ++ prev.refNumber ++ " at last compilation")) ∧
    (∀ prev, refData.prevIndex = some prev → env.config.hoverRefNumberEnabled = true →
       hoverContents (provideHoverOnRef env st document position refData token) =
         ["```latex\n" ++ refData.documentation ++ "\n```\n",
          "numbered " ++ prev.refNumber ++ " at last compilation",
          env.synctexLink refData.position.line refData.file]) ∧
    ((refData.prevIndex = none ∨ env.config.hoverRefNumberEnabled = false) →
       hoverContents (provideHoverOnRef env st document position refData token) =
         ["```latex\n" ++ refData.documentation ++ "\n```\n",
          env.synctexLink refData.position.line refData.file]) := by
  have htex : (if env.config.hoverRefEnabled then
      env.findHoverOnRefFn document position refData token else none) = none := by
    rcases h with h | h
    · simp [h]
    · cases env.config.hoverRefEnabled <;> simp [h]
  refine ⟨?_, ?_, ?_⟩
  · cases hp : refData.prevIndex <;> simp [refNumberMessage, hp]
  · intro prev hp hnum
    unfold provideHoverOnRef
    rw [htex]
    simp [refNumberMessage, hp, hnum, hoverContents]
  · intro hcase
    unfold provideHoverOnRef
    rw [htex]
    rcases hcase with hp | hnum
    · simp [refNumberMessage, hp, hoverContents]
    · cases hp : refData.prevIndex <;> simp [refNumberMessage, hp, hnum, hoverContents]

/-- Claim C7 witness (for the amended statement): with `prevIndex` present and
the numbering configuration on, the fallback hover carries the note. -/
theorem claim_C7_numbering_note_witness :
    cEnvW.config.hoverRefEnabled = false ∧
    hoverContents (provideHoverOnRef cEnvW st0 d0 p0 cRefW "t") =
      ["```latex\n" ++ cRefW.documentation ++ "\n```\n",
       "numbered " ++ "3" ++ " at last compilation",
       cEnvW.synctexLink cRefW.position.line cRefW.file] :=
  ⟨rfl, (claim_C7_numbering_note cEnvW st0 d0 p0 cRefW "t" (Or.inl rfl)).2.1
      { refNumber := "3", pageNumber := "1" } rfl rfl⟩

/-- Claim C8: two `findHoverOnRef` calls against the same target file load the
file at most once between them and operate on the same projected document. -/
theorem claim_C8_document_cache (env : Env) (cache : DocCache)
    (r1 r2 : ReferenceEntry) (t1 t2 : String) (hfile : r2.file = r1.file) :
    (findHoverOnRefRun env (findHoverOnRefRun env cache r1 t1).cache r2 t2).doc
      = (findHoverOnRefRun env cache r1 t1).doc ∧
    (findHoverOnRefRun env (findHoverOnRefRun env cache r1 t1).cache r2 t2).loads = 0 ∧
    (findHoverOnRefRun env cache r1 t1).loads ≤ 1 := by
  have htwice : loadDocument env (loadDocument env cache r1.file).cache r1.file
      = { doc := (loadDocument env cache r1.file).doc
          cache := (loadDocument env cache r1.file).cache
          loads := 0 } := by
    have h := loadDocument_find env cache r1.file
    generalize hO : loadDocument env cache r1.file = o at h ⊢
    simp [loadDocument, h]
  refine ⟨?_, ?_, ?_⟩
  · simp only [findHoverOnRefRun]
    rw [hfile, htwice]
  · simp only [findHoverOnRefRun]
    rw [hfile, htwice]
  · simp only [findHoverOnRefRun]
    exact loadDocument_loads_le_one env cache r1.file

/-- Claim C8 witness. -/
theorem claim_C8_document_cache_witness :
    (ref0.file = ref0.file) ∧
    ((findHoverOnRefRun sampleEnv (findHoverOnRefRun sampleEnv emptyCache ref0 "a").cache ref0 "b").doc
       = (findHoverOnRefRun sampleEnv emptyCache ref0 "a").doc ∧
     (findHoverOnRefRun sampleEnv (findHoverOnRefRun sampleEnv emptyCache ref0 "a").cache ref0 "b").loads = 0 ∧
     (findHoverOnRefRun sampleEnv emptyCache ref0 "a").loads ≤ 1) :=
  ⟨rfl, claim_C8_document_cache sampleEnv emptyCache ref0 ref0 "a" "b" rfl⟩

/-- Claim C9: no operation of the coordinator other than the registered
theme-change handler ever assigns the color field: every other operation
leaves it exactly as it was. -/
theorem claim_C9_single_writer (env : Env) (s : FullState) (op : MPOp)
    (h : op ≠ MPOp.opThemeChangeHandler) :
    (runOp env s op).mp.color = s.mp.color := by
  cases op <;> first | rfl | exact absurd rfl h

/-- Claim C9 witness. -/
theorem claim_C9_single_writer_witness :
    (MPOp.opFindProjectNewCommand ≠ MPOp.opThemeChangeHandler) ∧
    (runOp sampleEnv initialState MPOp.opFindProjectNewCommand).mp.color
      = initialState.mp.color :=
  ⟨by decide,
   claim_C9_single_writer sampleEnv initialState MPOp.opFindProjectNewCommand (by decide)⟩

/-- Claim C10: in the initial state the color field is `'#000000'`, and in
every reachable state it is exactly one of the two fixed values `'#000000'`
or `'#ffffff'`; every operation preserves this invariant. -/
theorem claim_C10_color_invariant :
    initialState.mp.color = "#000000" ∧
    ∀ s, Reachable s → s.mp.color = "#000000" ∨ s.mp.color = "#ffffff" := by
  refine ⟨rfl, ?_⟩
  intro s h
  induction h with
  | init => exact Or.inl rfl
  | step env s' op _ ih =>
      cases op with
      | opThemeChangeHandler =>
          cases hl : env.lightness with
          | light => exact Or.inl (by simp [runOp, getColorRun, hl])
          | dark => exact Or.inr (by simp [runOp, getColorRun, hl])
      | opProvideHoverOnTex doc tex nc => exact ih
      | opProvideHoverOnRef doc pos refData token => exact ih
      | opGenerateSVG tex arg => exact ih
      | opRenderCursor doc range => exact ih
      | opFindHoverOnTex doc pos => exact ih
      | opFindHoverOnRef refData token => exact ih
      | opRenderSvgOnRef tex refData => exact ih
      | opFindMathEnvIncludingPosition doc pos => exact ih
      | opFindProjectNewCommand => exact ih

/-- Claim C10 witness. -/
theorem claim_C10_color_invariant_witness :
    initialState.mp.color = "#000000" ∨ initialState.mp.color = "#ffffff" :=
  claim_C10_color_invariant.2 initialState Reachable.init
